import Mathlib

deriving instance DecidableEq for Except

/-!
Verification of the SmartVideo FFmpeg resolver and media helpers
(`src/smartvideo/sv/core/services/process.py`).

The module is shallowly embedded: the filesystem is a partial map from
path strings to file contents, the ambient process environment (environment
variables, the PATH executable lookup, the OS identity, the network, and the
subprocess runner) is a record of oracles, and every stateful Python function
becomes a Lean function threading the filesystem state explicitly and
returning `Except` for the exception-raising paths.  Archive files are
modelled by their member-name lists, which is all the Python code inspects
besides extracting; extraction writes opaque blobs.
-/

namespace SmartVideo

/-- Content stored at a path: a directory, an opaque file, or an archive
(zip/tar) modelled by its list of member names. -/
inductive FileContent
  | dir
  | blob
  | archive (members : List String)
deriving DecidableEq

/-- `s.startswith(pre)` (character-list implementation). -/
def strStartsWith (s pre : String) : Bool := pre.data.isPrefixOf s.data

/-- `s.endswith(suf)` (character-list implementation). -/
def strEndsWith (s suf : String) : Bool := suf.data.isSuffixOf s.data

/-- `s.lower()` (character-list implementation). -/
def strToLower (s : String) : String := ⟨s.data.map Char.toLower⟩

/-- Split a character list on `/`. -/
def splitSlash : List Char → List (List Char)
  | [] => [[]]
  | c :: rest =>
    let r := splitSlash rest
    if c = '/' then [] :: r
    else
      match r with
      | h :: t => (c :: h) :: t
      | [] => [[c]]

/-- `s.split("/")` (character-list implementation). -/
def splitOnSlash (s : String) : List String :=
  (splitSlash s.data).map (fun cs => ⟨cs⟩)

/-- Filesystem: a partial map from absolute path strings to contents.
Flat model: directory hierarchy is not enforced (the Python code never
relies on it beyond `mkdir(parents=True, exist_ok=True)`). -/
structure FS where
  look : String → Option FileContent

/-- `Path(p).exists()`. -/
def FS.pathExists (fs : FS) (p : String) : Bool :=
  (fs.look p).isSome

/-- Read the content at a path. -/
def FS.read (fs : FS) (p : String) : Option FileContent :=
  fs.look p

/-- Create or overwrite the file at `p`. -/
def FS.write (fs : FS) (p : String) (c : FileContent) : FS :=
  ⟨fun q => if q = p then some c else fs.look q⟩

/-- `Path(p).unlink()`. -/
def FS.unlink (fs : FS) (p : String) : FS :=
  ⟨fun q => if q = p then none else fs.look q⟩

/-- `Path(p).mkdir(parents=True, exist_ok=True)` (flat model: records the
directory itself). -/
def FS.mkdirp (fs : FS) (p : String) : FS :=
  if fs.pathExists p then fs else fs.write p .dir

/-- `shutil.rmtree(p, ignore_errors=True)`: removes `p` and everything
below it. -/
def FS.rmtree (fs : FS) (p : String) : FS :=
  ⟨fun q => if q = p ∨ strStartsWith q (p ++ "/") = true then none else fs.look q⟩

/-- Python `Path` joining with `/`. -/
def pjoin (a b : String) : String := a ++ "/" ++ b

/-- `Path(p).parent`: drop the final `/`-separated component. -/
def parentDir (p : String) : String :=
  ⟨(((p.toList.reverse.dropWhile (fun c => c ≠ '/')).drop 1).reverse)⟩

/-- Outcome of one streaming GET of a URL: success delivers the content
that gets written to the destination; failure either happened after part of
the body was already written (`wrote = true`) or before any write. -/
inductive DLOutcome
  | ok (content : FileContent)
  | fail (wrote : Bool) (err : String)
deriving DecidableEq

/-- `subprocess.CompletedProcess` as captured by `_run`. -/
structure ProcResult where
  returncode : Int
  stdout : String
  stderr : String
deriving DecidableEq

/-- Operating-system identity, as classified by the
`sys.platform.startswith(...)` tests in the source. -/
inductive OSKind
  | windows
  | linux
  | darwin
  | other (name : String)
deriving DecidableEq

/-- The ambient process environment: `os.getenv`, `shutil.which` (the PATH
executable search, itself a function of the environment and filesystem),
the OS identity and machine architecture, the network (one download outcome
per URL), the platformdirs user data directory, the package resource root,
and the subprocess runner. -/
structure Sys where
  env : String → Option String
  which : String → Option String
  os : OSKind
  machine : String
  net : String → DLOutcome
  userDataDir : String
  pkgDir : String
  run : List String → ProcResult

/-- Python exceptions raised by the module. -/
inductive PyErr
  | fileNotFoundError (msg : String)
  | runtimeError (msg : String)
deriving DecidableEq

/-- `True` iff the outcome is a successful download. -/
def DLOutcome.isOk : DLOutcome → Bool
  | .ok _ => true
  | .fail _ _ => false

/-- The error text of a failed outcome. -/
def DLOutcome.errMsg : DLOutcome → Option String
  | .ok _ => none
  | .fail _ e => some e

/-- The mirror loop of `_download_first_ok`: try each URL in order; on
success write the body to `dest` and stop, returning the chosen URL; on
failure remove any partially written `dest` (`if dest.exists(): dest.unlink()`)
and continue, remembering the last error.  Returns the final filesystem, the
chosen URL if any, and the last error if any. -/
def dl_attempts (net : String → DLOutcome) (dest : String) :
    List String → FS → Option String → FS × Option String × Option String
  | [], fs, lastErr => (fs, none, lastErr)
  | url :: rest, fs, lastErr =>
    match net url with
    | .ok c => (fs.write dest c, some url, lastErr)
    | .fail wrote e =>
      let fs1 := if wrote then fs.write dest .blob else fs
      let fs2 := if fs1.pathExists dest then fs1.unlink dest else fs1
      dl_attempts net dest rest fs2 (some e)

/-- Message of the `RuntimeError` raised when every mirror fails (the
f-string interpolation of the URL list and last error, with Python quote
characters elided). -/
def dlFailMsg (urls : List String) (lastErr : Option String) : String :=
  "Failed to download FFmpeg from all mirrors: [" ++ String.intercalate ", " urls ++
    "]\nLast error: " ++ lastErr.getD "None"

/-- `_download_first_ok(urls, dest)`: make the destination's parent
directory, then try the mirrors in order; raise when all fail. -/
def download_first_ok (net : String → DLOutcome) (urls : List String) (dest : String)
    (fs : FS) : FS × Except PyErr String :=
  let fs0 := fs.mkdirp (parentDir dest)
  match dl_attempts net dest urls fs0 none with
  | (fs1, some url, _) => (fs1, .ok url)
  | (fs1, none, lastErr) => (fs1, .error (.runtimeError (dlFailMsg urls lastErr)))

/-- `_win_ffmpeg_zip_urls()`. -/
def win_ffmpeg_zip_urls : List String :=
  ["https://www.gyan.dev/ffmpeg/builds/ffmpeg-release-essentials.zip",
   "https://www.gyan.dev/ffmpeg/builds/ffmpeg-git-essentials.zip"]

/-- `_ensure_win_binaries_to(dir_bin)`: download the zip, find the two
members by suffix, extract them, copy to the fixed final names, clean up. -/
def ensure_win_binaries_to (sys : Sys) (fs : FS) (dir_bin : String) :
    FS × Except PyErr (String × String) :=
  let zip_path := pjoin dir_bin "ffmpeg.zip"
  match download_first_ok sys.net win_ffmpeg_zip_urls zip_path fs with
  | (fs1, .error e) => (fs1, .error e)
  | (fs1, .ok _url) =>
    match fs1.read zip_path with
    | some (.archive members) =>
      match members.find? (fun m => strEndsWith m "/bin/ffmpeg.exe"),
            members.find? (fun m => strEndsWith m "/bin/ffprobe.exe") with
      | some fm, some fp =>
        let fs2 := (fs1.write (pjoin dir_bin fm) .blob).write (pjoin dir_bin fp) .blob
        let final_ffmpeg := pjoin dir_bin "ffmpeg.exe"
        let final_ffprobe := pjoin dir_bin "ffprobe.exe"
        let fs3 := (fs2.write final_ffmpeg .blob).write final_ffprobe .blob
        let root := (splitOnSlash fm).headD ""
        let fs4 := (fs3.rmtree (pjoin dir_bin root)).unlink zip_path
        (fs4, .ok (final_ffmpeg, final_ffprobe))
      | _, _ => (fs1, .error (.runtimeError "ffmpeg.zip does not contain expected binaries."))
    | _ => (fs1, .error (.runtimeError "zipfile.BadZipFile: ffmpeg.zip"))

/-- The amd64 entry of `_linux_static_urls()`. -/
def linux_amd64_urls : List String :=
  ["https://johnvansickle.com/ffmpeg/releases/ffmpeg-release-amd64-static.tar.xz"]

/-- The arm64 entry of `_linux_static_urls()`. -/
def linux_arm64_urls : List String :=
  ["https://johnvansickle.com/ffmpeg/releases/ffmpeg-release-arm64-static.tar.xz"]

/-- `_linux_static_urls()[arch]` as a lookup. -/
def linux_static_urls (arch : String) : Option (List String) :=
  if arch = "x86_64" then some linux_amd64_urls
  else if arch = "aarch64" then some linux_arm64_urls
  else if arch = "amd64" then some linux_amd64_urls
  else if arch = "arm64" then some linux_arm64_urls
  else none

/-- `_ensure_linux_binaries_to(dir_bin)`. -/
def ensure_linux_binaries_to (sys : Sys) (fs : FS) (dir_bin : String) :
    FS × Except PyErr (String × String) :=
  let arch := strToLower sys.machine
  let urls := match linux_static_urls arch with
    | some us => us
    | none => linux_amd64_urls
  if urls.isEmpty then
    (fs, .error (.runtimeError ("Unsupported Linux arch for auto-download: " ++ arch)))
  else
    let tar_path := pjoin dir_bin "ffmpeg-linux.tar.xz"
    match download_first_ok sys.net urls tar_path fs with
    | (fs1, .error e) => (fs1, .error e)
    | (fs1, .ok _url) =>
      match fs1.read tar_path with
      | some (.archive members) =>
        match members.find? (fun m => strEndsWith m "/ffmpeg"),
              members.find? (fun m => strEndsWith m "/ffprobe") with
        | some fm, some fp =>
          let fs2 := (fs1.write (pjoin dir_bin fm) .blob).write (pjoin dir_bin fp) .blob
          let final_ffmpeg := pjoin dir_bin "ffmpeg"
          let final_ffprobe := pjoin dir_bin "ffprobe"
          let fs3 := (fs2.write final_ffmpeg .blob).write final_ffprobe .blob
          let root := (splitOnSlash fm).headD ""
          let fs4 := (fs3.rmtree (pjoin dir_bin root)).unlink tar_path
          (fs4, .ok (final_ffmpeg, final_ffprobe))
        | _, _ => (fs1, .error (.runtimeError "Archive does not contain ffmpeg/ffprobe."))
      | _ => (fs1, .error (.runtimeError "tarfile.ReadError: ffmpeg-linux.tar.xz"))

/-- The ffmpeg URL column of `_mac_urls()`. -/
def mac_urls_ffmpeg (arch_key : String) : List String :=
  if arch_key = "arm64" then
    ["https://github.com/BtbN/FFmpeg-Builds/releases/latest/download/ffmpeg-master-latest-macos64-arm64-gpl.zip"]
  else
    ["https://github.com/BtbN/FFmpeg-Builds/releases/latest/download/ffmpeg-master-latest-macos64-gpl.zip"]

/-- The ffprobe URL column of `_mac_urls()`. -/
def mac_urls_ffprobe (arch_key : String) : List String :=
  if arch_key = "arm64" then
    ["https://github.com/BtbN/FFmpeg-Builds/releases/latest/download/ffprobe-master-latest-macos64-arm64-gpl.zip"]
  else
    ["https://github.com/BtbN/FFmpeg-Builds/releases/latest/download/ffprobe-master-latest-macos64-gpl.zip"]

/-- The cleanup loop body of `_ensure_macos_binaries_to`: find the first
path component starting with `ffmpeg`/`ffprobe` and remove that tree under
`dir_bin`. -/
def macCleanup (fs : FS) (dir_bin p : String) : FS :=
  match (splitOnSlash p).find?
      (fun part => strStartsWith (strToLower part) "ffmpeg" || strStartsWith (strToLower part) "ffprobe") with
  | some r => fs.rmtree (pjoin dir_bin r)
  | none => fs

/-- `_ensure_macos_binaries_to(dir_bin)`: two separate archives, one per
tool; the ffmpeg candidate is extracted before the ffprobe archive is
examined. -/
def ensure_macos_binaries_to (sys : Sys) (fs : FS) (dir_bin : String) :
    FS × Except PyErr (String × String) :=
  let arch := strToLower sys.machine
  let arch_key := if arch = "arm64" ∨ arch = "x86_64" then arch else "universal"
  let ff_zip := pjoin dir_bin "ffmpeg-mac.zip"
  let fp_zip := pjoin dir_bin "ffprobe-mac.zip"
  match download_first_ok sys.net (mac_urls_ffmpeg arch_key) ff_zip fs with
  | (fs1, .error e) => (fs1, .error e)
  | (fs1, .ok _u1) =>
    match download_first_ok sys.net (mac_urls_ffprobe arch_key) fp_zip fs1 with
    | (fs2, .error e) => (fs2, .error e)
    | (fs2, .ok _u2) =>
      match fs2.read ff_zip with
      | some (.archive ms1) =>
        match (ms1.filter (fun m => strEndsWith m "/bin/ffmpeg" || strEndsWith m "ffmpeg")).head? with
        | none => (fs2, .error (.runtimeError "ffmpeg zip: ffmpeg not found."))
        | some c1 =>
          let fs3 := fs2.write (pjoin dir_bin c1) .blob
          match fs3.read fp_zip with
          | some (.archive ms2) =>
            match (ms2.filter (fun m => strEndsWith m "/bin/ffprobe" || strEndsWith m "ffprobe")).head? with
            | none => (fs3, .error (.runtimeError "ffprobe zip: ffprobe not found."))
            | some c2 =>
              let fs4 := fs3.write (pjoin dir_bin c2) .blob
              let final_ffmpeg := pjoin dir_bin "ffmpeg"
              let final_ffprobe := pjoin dir_bin "ffprobe"
              let fs5 := (fs4.write final_ffmpeg .blob).write final_ffprobe .blob
              let fs6 := macCleanup (macCleanup fs5 dir_bin (pjoin dir_bin c1))
                dir_bin (pjoin dir_bin c2)
              let fs7 := (fs6.unlink ff_zip).unlink fp_zip
              (fs7, .ok (final_ffmpeg, final_ffprobe))
          | _ => (fs3, .error (.runtimeError "zipfile.BadZipFile: ffprobe-mac.zip"))
      | _ => (fs2, .error (.runtimeError "zipfile.BadZipFile: ffmpeg-mac.zip"))

/-- Message of the `FileNotFoundError` raised by `_auto_download` on an OS
with no installer. -/
def autoDownloadUnavailableMsg : String :=
  "FFmpeg not found and no auto-download available for this OS.\nPlease install FFmpeg manually or set SMARTVIDEO_FFMPEG / SMARTVIDEO_FFPROBE."

/-- `_auto_download(dir_bin)`: dispatch on `sys.platform`. -/
def auto_download (sys : Sys) (fs : FS) (dir_bin : String) :
    FS × Except PyErr (String × String) :=
  match sys.os with
  | .windows => ensure_win_binaries_to sys fs dir_bin
  | .linux => ensure_linux_binaries_to sys fs dir_bin
  | .darwin => ensure_macos_binaries_to sys fs dir_bin
  | .other _ => (fs, .error (.fileNotFoundError autoDownloadUnavailableMsg))

/-- The environment-override head of `_find_tool`:
`env = os.getenv(env_var); if env and Path(env).exists(): return env`.
Yields the override path when the variable is set, non-empty (Python
truthiness) and the path exists; `none` otherwise. -/
def env_override (sys : Sys) (fs : FS) (env_var : String) : Option String :=
  match sys.env env_var with
  | some e => if e != "" && fs.pathExists e then some e else none
  | none => none

/-- `_find_tool(name, env_var, packaged, data_bin)`: ENV override (skipped
when the variable is unset, empty, or its path does not exist) → PATH →
packaged copy → cached copy → platform auto-download. -/
def find_tool (sys : Sys) (fs : FS) (name env_var packaged data_bin : String) :
    FS × Except PyErr String :=
  match env_override sys fs env_var with
  | some e => (fs, .ok e)
  | none =>
    match sys.which name with
    | some found => (fs, .ok found)
    | none =>
      if fs.pathExists packaged then (fs, .ok packaged)
      else
        let cached := pjoin data_bin name
        if fs.pathExists cached then (fs, .ok cached)
        else
          match auto_download sys fs data_bin with
          | (fs1, .error e) => (fs1, .error e)
          | (fs1, .ok pair) =>
            (fs1, .ok (if strStartsWith name "ffmpeg" then pair.1 else pair.2))

/-- `_data_bin_dir()`: the user data `bin` directory; note it is created
(`mkdir(parents=True, exist_ok=True)`) as a side effect of being computed. -/
def data_bin_dir (sys : Sys) (fs : FS) : FS × String :=
  let p := pjoin sys.userDataDir "bin"
  (fs.mkdirp p, p)

/-- `_exe_names()`. -/
def exe_names (sys : Sys) : String × String :=
  match sys.os with
  | .windows => ("ffmpeg.exe", "ffprobe.exe")
  | _ => ("ffmpeg", "ffprobe")

/-- `_pkg_bin(name)`. -/
def pkg_bin (sys : Sys) (name : String) : String :=
  pjoin (pjoin sys.pkgDir "bin") name

/-- `ensure_binaries()`: resolve both tools through `_find_tool`. -/
def ensure_binaries (sys : Sys) (fs : FS) : FS × Except PyErr (String × String) :=
  let r := data_bin_dir sys fs
  let names := exe_names sys
  match find_tool sys r.1 names.1 "SMARTVIDEO_FFMPEG" (pkg_bin sys names.1) r.2 with
  | (fs1, .error e) => (fs1, .error e)
  | (fs1, .ok ffmpeg) =>
    match find_tool sys fs1 names.2 "SMARTVIDEO_FFPROBE" (pkg_bin sys names.2) r.2 with
    | (fs2, .error e) => (fs2, .error e)
    | (fs2, .ok ffprobe) => (fs2, .ok (ffmpeg, ffprobe))

/-- `_run(cmd)`: run the command; a non-zero exit status logs the captured
stdout/stderr and raises `RuntimeError` with a fixed message (the captured
text is not part of the exception). -/
def runCommand (sys : Sys) (cmd : List String) : Except PyErr ProcResult :=
  let proc := sys.run cmd
  if proc.returncode ≠ 0 then .error (.runtimeError "Command failed (see logs above).")
  else .ok proc

/-- Numeric value of a digit list. -/
def digitsVal (ds : List Char) : Nat :=
  ds.foldl (fun n c => n * 10 + (c.toNat - 48)) 0

/-- Parse a decimal mantissa (`123`, `123.456`, `.5`, `12.`) from the front
of a character list, returning the value and the unconsumed rest. -/
def parseMantissa (cs : List Char) : Option (Rat × List Char) :=
  let ip := cs.takeWhile Char.isDigit
  let r1 := cs.dropWhile Char.isDigit
  match r1 with
  | c :: r2 =>
    if c = '.' then
      let fp := r2.takeWhile Char.isDigit
      let r3 := r2.dropWhile Char.isDigit
      if ip.isEmpty && fp.isEmpty then none
      else some ((digitsVal ip : Rat) + (digitsVal fp : Rat) / ((10 : Rat) ^ fp.length), r3)
    else if ip.isEmpty then none else some ((digitsVal ip : Rat), r1)
  | [] => if ip.isEmpty then none else some ((digitsVal ip : Rat), [])

/-- Parse an optional exponent part (`e5`, `E-3`, ...). -/
def parseExponentPart (cs : List Char) : Option (Int × List Char) :=
  match cs with
  | c :: rest =>
    if c = 'e' ∨ c = 'E' then
      let signed : Int × List Char :=
        match rest with
        | d :: r => if d = '-' then (-1, r) else if d = '+' then (1, r) else (1, rest)
        | [] => (1, [])
      let ds := signed.2.takeWhile Char.isDigit
      let r3 := signed.2.dropWhile Char.isDigit
      if ds.isEmpty then none else some (signed.1 * (digitsVal ds : Int), r3)
    else none
  | [] => none

/-- Python `float(s)` on the already-stripped probe output, as an exact
rational: optional sign, decimal mantissa, optional exponent, full
consumption required.  (The `inf`/`nan`/underscore forms Python also
accepts never occur in `ffprobe` duration output and are not modelled.) -/
def parsePyFloat (s : String) : Option Rat :=
  let cs := s.toList
  let signed : Rat × List Char :=
    match cs with
    | c :: rest => if c = '-' then (-1, rest) else if c = '+' then (1, rest) else (1, cs)
    | [] => (1, [])
  match parseMantissa signed.2 with
  | none => none
  | some (m, rest) =>
    match rest with
    | [] => some (signed.1 * m)
    | _ =>
      match parseExponentPart rest with
      | some (e, []) => some (signed.1 * m * (10 : Rat) ^ e)
      | _ => none

/-- Python `str.strip()`: remove leading and trailing whitespace. -/
def pyStrip (s : String) : String :=
  ⟨((s.toList.dropWhile Char.isWhitespace).reverse.dropWhile Char.isWhitespace).reverse⟩

/-- The `ffprobe` invocation built by `probe_duration`. -/
def probeCmd (ffprobe video : String) : List String :=
  [ffprobe, "-v", "error", "-select_streams", "v:0",
   "-show_entries", "format=duration",
   "-of", "default=noprint_wrappers=1:nokey=1", video]

/-- `probe_duration(video)`: existence check, binary resolution, `ffprobe`
invocation, `float(stdout.strip())` parse. -/
def probe_duration (sys : Sys) (fs : FS) (video : String) : FS × Except PyErr Rat :=
  if fs.pathExists video = false then
    (fs, .error (.fileNotFoundError ("Video not found: " ++ video)))
  else
    match ensure_binaries sys fs with
    | (fs1, .error e) => (fs1, .error e)
    | (fs1, .ok pair) =>
      match runCommand sys (probeCmd pair.2 video) with
      | .error e => (fs1, .error e)
      | .ok proc =>
        match parsePyFloat (pyStrip proc.stdout) with
        | some v => (fs1, .ok v)
        | none => (fs1, .error (.runtimeError ("Unable to parse duration for " ++ video)))

/-- Rendering of a Python float into an argument string (`f"{start}"`),
modelled by the canonical rational rendering. -/
def pyFloatStr (q : Rat) : String := toString q

/-- The fixed re-encode flag block of `run_ffmpeg_extract_clip`. -/
def reencode_flags : List String :=
  ["-c:v", "libx264", "-preset", "veryfast", "-crf", "23",
   "-c:a", "aac", "-b:a", "128k"]

/-- The `-ss` block of `run_ffmpeg_extract_clip`
(`if start is not None and start >= 0`). -/
def seek_args (start : Option Rat) : List String :=
  match start with
  | some s => if 0 ≤ s then ["-ss", pyFloatStr s] else []
  | none => []

/-- The `-to`/`-t` block of `run_ffmpeg_extract_clip` (here `stop` stands
for the Python parameter `end`). -/
def time_limit_args (start stop : Option Rat) : List String :=
  match start, stop with
  | some s, some e => if s ≤ e then ["-to", pyFloatStr e] else []
  | none, some e => if 0 ≤ e then ["-t", pyFloatStr e] else []
  | _, _ => []

/-- The codec block of `run_ffmpeg_extract_clip`. -/
def codec_args (codec_copy : Bool) : List String :=
  if codec_copy then ["-c", "copy"] else reencode_flags

/-- The full argument list constructed by `run_ffmpeg_extract_clip`. -/
def clip_args (ffmpeg src dst : String) (start stop : Option Rat)
    (codec_copy : Bool) : List String :=
  [ffmpeg, "-y"] ++ seek_args start ++ ["-i", src]
    ++ time_limit_args start stop ++ codec_args codec_copy ++ [dst]

/-- `run_ffmpeg_extract_clip(src, dst, start, end, codec_copy)`: existence
check, binary resolution, argument construction, destination parent
creation, invocation. -/
def run_ffmpeg_extract_clip (sys : Sys) (fs : FS) (src dst : String)
    (start stop : Option Rat) (codec_copy : Bool) : FS × Except PyErr Unit :=
  if fs.pathExists src = false then
    (fs, .error (.fileNotFoundError ("Source video not found: " ++ src)))
  else
    match ensure_binaries sys fs with
    | (fs1, .error e) => (fs1, .error e)
    | (fs1, .ok pair) =>
      let args := clip_args pair.1 src dst start stop codec_copy
      let fs2 := fs1.mkdirp (parentDir dst)
      match runCommand sys args with
      | .error e => (fs2, .error e)
      | .ok _ => (fs2, .ok ())

/-- Boolean substring test (used to state what an error message does or
does not mention). -/
def strHasSub (hay needle : String) : Bool :=
  hay.toList.tails.any (fun t => needle.toList.isPrefixOf t)

/-! ### Concrete test fixtures -/

/-- Empty filesystem. -/
def fsEmpty : FS := ⟨fun _ => none⟩

/-- Filesystem holding only the two override binaries and one video file. -/
def fsEnvOnly : FS :=
  ⟨fun p => if p = "/opt/ffmpeg" ∨ p = "/opt/ffprobe" ∨ p = "/v.mp4" then some .blob else none⟩

/-- Environment where both override variables point at existing binaries,
the PATH search misses, the network is down, and every spawned process
fails with exit code 1 and stderr `boom`. -/
def sysEnvOnly : Sys where
  env := fun v =>
    if v = "SMARTVIDEO_FFMPEG" then some "/opt/ffmpeg"
    else if v = "SMARTVIDEO_FFPROBE" then some "/opt/ffprobe" else none
  which := fun _ => none
  os := .linux
  machine := "x86_64"
  net := fun _ => .fail false "offline"
  userDataDir := "/home/u/share"
  pkgDir := "/pkg"
  run := fun _ => ⟨1, "", "boom"⟩

/-- Like `sysEnvOnly` but every spawned process succeeds with the
non-numeric output `abc`. -/
def sysParseFail : Sys where
  env := sysEnvOnly.env
  which := fun _ => none
  os := .linux
  machine := "x86_64"
  net := fun _ => .fail false "offline"
  userDataDir := "/home/u/share"
  pkgDir := "/pkg"
  run := fun _ => ⟨0, "abc", ""⟩

/-- Environment on an OS with no installer (`sunos`) where every
resolution source misses. -/
def sysOther : Sys where
  env := fun _ => none
  which := fun _ => none
  os := .other "sunos"
  machine := "sparc"
  net := fun _ => .fail false "offline"
  userDataDir := "/home/u/share"
  pkgDir := "/pkg"
  run := fun _ => ⟨0, "", ""⟩

/-- macOS environment whose ffmpeg archive contains its executable but
whose ffprobe archive does not. -/
def sysMacCorrupt : Sys where
  env := fun _ => none
  which := fun _ => none
  os := .darwin
  machine := "x86_64"
  net := fun url =>
    if url = "https://github.com/BtbN/FFmpeg-Builds/releases/latest/download/ffmpeg-master-latest-macos64-gpl.zip" then
      .ok (.archive ["ffx/bin/ffmpeg"])
    else if url = "https://github.com/BtbN/FFmpeg-Builds/releases/latest/download/ffprobe-master-latest-macos64-gpl.zip" then
      .ok (.archive ["README"])
    else .fail false "offline"
  userDataDir := "/home/u/share"
  pkgDir := "/pkg"
  run := fun _ => ⟨0, "", ""⟩

/-- Windows environment whose downloaded zip lacks both executables. -/
def sysWinCorrupt : Sys where
  env := fun _ => none
  which := fun _ => none
  os := .windows
  machine := "amd64"
  net := fun url =>
    if url = "https://www.gyan.dev/ffmpeg/builds/ffmpeg-release-essentials.zip" then
      .ok (.archive ["ffmpeg-7.0-essentials_build/doc/readme.txt"])
    else .fail false "offline"
  userDataDir := "/users/u/appdata"
  pkgDir := "/pkg"
  run := fun _ => ⟨0, "", ""⟩

/-- A two-mirror network where the first mirror fails after a partial
write and the second succeeds. -/
def netTwoMirrors : String → DLOutcome := fun url =>
  if url = "https://m1/f.zip" then .fail true "HTTP 500"
  else if url = "https://m2/f.zip" then .ok (.archive ["x/bin/t"])
  else .fail false "no route"

/-- An all-failing network. -/
def netAllFail : String → DLOutcome := fun url =>
  if url = "https://m1/f.zip" then .fail true "HTTP 500"
  else .fail false "no route"

/-! ### Filesystem and path lemmas -/

lemma FS.look_write (fs : FS) (p : String) (c : FileContent) (q : String) :
    (fs.write p c).look q = if q = p then some c else fs.look q := rfl

lemma FS.look_unlink (fs : FS) (p q : String) :
    (fs.unlink p).look q = if q = p then none else fs.look q := rfl

lemma FS.look_mkdirp_ne (fs : FS) (p q : String) (h : q ≠ p) :
    (fs.mkdirp p).look q = fs.look q := by
  unfold FS.mkdirp
  split
  · rfl
  · simp [FS.look_write, h]

lemma FS.pathExists_congr {fs1 fs2 : FS} (q : String) (h : fs1.look q = fs2.look q) :
    fs1.pathExists q = fs2.pathExists q := by
  simp [FS.pathExists, h]

lemma FS.pathExists_mkdirp_of (fs : FS) (p q : String) (h : fs.pathExists q = true) :
    (fs.mkdirp p).pathExists q = true := by
  unfold FS.mkdirp
  split
  · exact h
  · by_cases hq : q = p
    · subst hq; simp [FS.pathExists, FS.look_write]
    · have hlk : (fs.write p .dir).look q = fs.look q := by
        simp [FS.look_write, hq]
      rw [FS.pathExists_congr q hlk]; exact h

lemma List.dropWhile_append_all {p : Char → Bool} :
    ∀ (l₁ l₂ : List Char), (∀ x ∈ l₁, p x = true) →
      List.dropWhile p (l₁ ++ l₂) = List.dropWhile p l₂ := by
  intro l₁
  induction l₁ with
  | nil => intro l₂ _; rfl
  | cons a t ih =>
    intro l₂ h
    have ha : p a = true := h a (List.mem_cons_self a t)
    simp only [List.cons_append, List.dropWhile_cons, ha, if_true]
    exact ih l₂ (fun x hx => h x (List.mem_cons_of_mem a hx))

lemma data_pjoin (a b : String) : (pjoin a b).data = a.data ++ '/' :: b.data := by
  show (a ++ "/" ++ b).data = _
  rw [String.data_append, String.data_append]
  have h : ("/" : String).data = ['/'] := rfl
  rw [h]
  simp

lemma parentDir_pjoin (a b : String) (hb : ∀ c ∈ b.data, ¬c = '/') :
    parentDir (pjoin a b) = a := by
  apply String.ext
  show ((((pjoin a b).toList.reverse.dropWhile (fun c => c ≠ '/')).drop 1).reverse) = a.data
  have h1 : (pjoin a b).toList = a.data ++ '/' :: b.data := data_pjoin a b
  rw [h1, List.reverse_append, List.reverse_cons]
  have h2 : List.dropWhile (fun c => decide (c ≠ '/')) (b.data.reverse ++ '/' :: a.data.reverse)
      = List.dropWhile (fun c => decide (c ≠ '/')) ('/' :: a.data.reverse) := by
    apply List.dropWhile_append_all
    intro x hx
    simp only [decide_eq_true_eq]
    exact hb x (List.mem_reverse.mp hx)
  simp only [List.append_assoc, List.singleton_append] at h2 ⊢
  rw [h2]
  simp [List.dropWhile_cons]

lemma pjoin_ne_left (a b : String) : pjoin a b ≠ a := by
  intro h
  have := congrArg String.data h
  rw [data_pjoin] at this
  have hlen := congrArg List.length this
  simp at hlen

lemma pjoin_right_inj {a b c : String} (h : pjoin a b = pjoin a c) : b = c := by
  have hd := congrArg String.data h
  rw [data_pjoin, data_pjoin] at hd
  have := List.append_cancel_left hd
  exact String.ext (List.cons_injective.eq_iff.mp this)

/-! ### Mirror-loop lemmas -/

lemma dl_attempts_look_ne (net : String → DLOutcome) (dest q : String) (hq : q ≠ dest) :
    ∀ (urls : List String) (fs : FS) (le : Option String),
      ((dl_attempts net dest urls fs le).1).look q = fs.look q := by
  intro urls
  induction urls with
  | nil => intro fs le; rfl
  | cons url rest ih =>
    intro fs le
    unfold dl_attempts
    cases hnet : net url with
    | ok c => simp [FS.look_write, hq]
    | fail wrote e =>
      rw [ih]
      by_cases hw : wrote = true
      · subst hw
        simp only [if_true]
        have h1 : ((fs.write dest .blob).unlink dest).look q = fs.look q := by
          simp [FS.look_unlink, FS.look_write, hq]
        have h2 : (fs.write dest FileContent.blob).pathExists dest = true := by
          simp [FS.pathExists, FS.look_write]
        rw [h2]
        simpa using h1
      · have hw' : wrote = false := by revert hw; cases wrote <;> simp
        subst hw'
        simp only [Bool.false_eq_true, if_false]
        split
        · simp [FS.look_unlink, hq]
        · rfl

lemma getLast?_cons_isSome {α : Type} (r : α) (rs : List α) :
    ∃ x, (r :: rs).getLast? = some x := by
  induction rs generalizing r with
  | nil => exact ⟨r, rfl⟩
  | cons b t ih =>
    obtain ⟨x, hx⟩ := ih b
    exact ⟨x, by rw [List.getLast?_cons_cons]; exact hx⟩

lemma dl_attempts_all_fail (net : String → DLOutcome) (dest : String) :
    ∀ (urls : List String) (fs : FS) (le : Option String),
      (∀ u ∈ urls, (net u).isOk = false) →
      (dl_attempts net dest urls fs le).2.1 = none
      ∧ (dl_attempts net dest urls fs le).2.2
          = (match urls.getLast? with
             | some u => (net u).errMsg
             | none => le)
      ∧ (urls ≠ [] → ((dl_attempts net dest urls fs le).1).pathExists dest = false) := by
  intro urls
  induction urls with
  | nil => intro fs le _; exact ⟨rfl, rfl, fun h => absurd rfl h⟩
  | cons url rest ih =>
    intro fs le hall
    have hu : (net url).isOk = false := hall url (List.mem_cons_self url rest)
    cases hnet : net url with
    | ok c => rw [hnet] at hu; simp [DLOutcome.isOk] at hu
    | fail wrote e =>
      unfold dl_attempts
      rw [hnet]
      set fs1 := if wrote = true then fs.write dest .blob else fs with hfs1
      set fs2 := if fs1.pathExists dest = true then fs1.unlink dest else fs1 with hfs2
      have hfs2dest : fs2.pathExists dest = false := by
        rw [hfs2]
        split
        · simp [FS.pathExists, FS.look_unlink]
        · rename_i hcond
          revert hcond
          cases h : fs1.pathExists dest <;> simp
      cases rest with
      | nil =>
        refine ⟨rfl, ?_, fun _ => hfs2dest⟩
        simp [dl_attempts, DLOutcome.errMsg, hnet]
      | cons r rs =>
        have hrest : ∀ u ∈ r :: rs, (net u).isOk = false := by
          intro u hu'; exact hall u (List.mem_cons_of_mem url hu')
        obtain ⟨ha, hb, hc⟩ := ih fs2 (some e) hrest
        refine ⟨ha, ?_, fun _ => hc (by simp)⟩
        rw [hb, List.getLast?_cons_cons]
        obtain ⟨x, hx⟩ := getLast?_cons_isSome r rs
        simp [hx]

lemma dl_attempts_first_ok (net : String → DLOutcome) (dest : String) (u : String)
    (hu : (net u).isOk = true) :
    ∀ (pre post : List String) (fs : FS) (le : Option String),
      (∀ v ∈ pre, (net v).isOk = false) →
      (dl_attempts net dest (pre ++ u :: post) fs le).2.1 = some u := by
  intro pre
  induction pre with
  | nil =>
    intro post fs le _
    cases hnet : net u with
    | ok c => simp [dl_attempts, hnet]
    | fail wrote e => rw [hnet] at hu; simp [DLOutcome.isOk] at hu
  | cons v t ih =>
    intro post fs le hall
    have hv : (net v).isOk = false := hall v (List.mem_cons_self v t)
    cases hnet : net v with
    | ok c => rw [hnet] at hv; simp [DLOutcome.isOk] at hv
    | fail wrote e =>
      show (dl_attempts net dest (v :: (t ++ u :: post)) fs le).2.1 = some u
      unfold dl_attempts
      rw [hnet]
      exact ih post _ (some e) (fun x hx => hall x (List.mem_cons_of_mem v hx))

lemma download_first_ok_look_ne (net : String → DLOutcome) (urls : List String)
    (dest : String) (fs : FS) (q : String) (hq : q ≠ dest) (hp : q ≠ parentDir dest) :
    ((download_first_ok net urls dest fs).1).look q = fs.look q := by
  unfold download_first_ok
  have hbase : ∀ r : FS × Option String × Option String,
      r = dl_attempts net dest urls (fs.mkdirp (parentDir dest)) none →
      (match r with
       | (fs1, some url, _) => (fs1, Except.ok url)
       | (fs1, none, lastErr) =>
         (fs1, Except.error (PyErr.runtimeError (dlFailMsg urls lastErr)))).1.look q
        = fs.look q := by
    intro r hr
    have hfs : (r.1).look q = fs.look q := by
      rw [hr, dl_attempts_look_ne net dest q hq, FS.look_mkdirp_ne fs (parentDir dest) q hp]
    obtain ⟨fs1, c, le⟩ := r
    cases c <;> simpa using hfs
  exact hbase _ rfl

/-- Self-existence of a freshly made directory. -/
lemma FS.pathExists_mkdirp_self (fs : FS) (p : String) :
    (fs.mkdirp p).pathExists p = true := by
  unfold FS.mkdirp
  split
  · assumption
  · simp [FS.pathExists, FS.look_write]

/-! ### Claim theorems -/

/-- C2: `run_ffmpeg_extract_clip` argument construction: a `start ≥ 0`
places `-ss start` before `-i`; both bounds with `end ≥ start` add
`-to end` after the input; only `end ≥ 0` adds `-t end`; neither adds no
time argument; `codec_copy` selects `-c copy` versus the fixed re-encode
flags; the destination is the final argument. -/
theorem extract_clip_argument_construction (f src dst : String) (s e : Rat) (cc : Bool) :
    (0 ≤ s → s ≤ e →
      clip_args f src dst (some s) (some e) cc
        = [f, "-y", "-ss", pyFloatStr s, "-i", src, "-to", pyFloatStr e]
          ++ (if cc then ["-c", "copy"] else reencode_flags) ++ [dst])
  ∧ (0 ≤ e →
      clip_args f src dst none (some e) cc
        = [f, "-y", "-i", src, "-t", pyFloatStr e]
          ++ (if cc then ["-c", "copy"] else reencode_flags) ++ [dst])
  ∧ (0 ≤ s →
      clip_args f src dst (some s) none cc
        = [f, "-y", "-ss", pyFloatStr s, "-i", src]
          ++ (if cc then ["-c", "copy"] else reencode_flags) ++ [dst])
  ∧ clip_args f src dst none none cc
      = [f, "-y", "-i", src]
        ++ (if cc then ["-c", "copy"] else reencode_flags) ++ [dst]
  ∧ (s < 0 → s ≤ e →
      clip_args f src dst (some s) (some e) cc
        = [f, "-y", "-i", src, "-to", pyFloatStr e]
          ++ (if cc then ["-c", "copy"] else reencode_flags) ++ [dst]) := by
  refine ⟨?_, ?_, ?_, ?_, ?_⟩ <;> intros <;>
    simp [clip_args, seek_args, time_limit_args, codec_args, not_le.mpr, *]

/-- Witness for C2 at start 2, end 5, stream copy. -/
theorem extract_clip_argument_construction_witness :
    clip_args "ffmpeg" "in.mp4" "out.mp4" (some 2) (some 5) true
      = ["ffmpeg", "-y", "-ss", "2", "-i", "in.mp4", "-to", "5", "-c", "copy", "out.mp4"] := by
  rw [(extract_clip_argument_construction "ffmpeg" "in.mp4" "out.mp4" 2 5 true).1
    (by norm_num) (by norm_num)]
  decide

/-- C9: calling the clip extractor with both bounds but `end < start`
silently drops the end bound: the built command and the whole operation
coincide with the `end = None` call (no `-to`/`-t`, no error). -/
theorem clip_end_before_start_ignored (sys : Sys) (fs : FS) (f src dst : String)
    (s e : Rat) (cc : Bool) (h : e < s) :
    clip_args f src dst (some s) (some e) cc = clip_args f src dst (some s) none cc
  ∧ run_ffmpeg_extract_clip sys fs src dst (some s) (some e) cc
      = run_ffmpeg_extract_clip sys fs src dst (some s) none cc := by
  have hns : ¬(s ≤ e) := not_le.mpr h
  have hargs : ∀ ff : String,
      clip_args ff src dst (some s) (some e) cc = clip_args ff src dst (some s) none cc := by
    intro ff
    simp [clip_args, time_limit_args, hns]
  refine ⟨hargs f, ?_⟩
  unfold run_ffmpeg_extract_clip
  split
  · rfl
  · cases hres : ensure_binaries sys fs with
    | mk fs1 r =>
      cases r with
      | error err => rfl
      | ok pair => simp only [hargs pair.1]

/-- Witness for C9 at start 5, end 2. -/
theorem clip_end_before_start_ignored_witness :
    clip_args "ffmpeg" "in.mp4" "out.mp4" (some 5) (some 2) true
      = clip_args "ffmpeg" "in.mp4" "out.mp4" (some 5) none true :=
  (clip_end_before_start_ignored sysEnvOnly fsEnvOnly "ffmpeg" "in.mp4" "out.mp4" 5 2 true
    (by norm_num)).1

/-- C10: on a missing source file both media operations fail with the
`FileNotFoundError` immediately and return the filesystem unchanged —
`ensure_binaries` is not reached, so no download or cache-directory
creation happens on this path. -/
theorem missing_source_short_circuits (sys : Sys) (fs : FS) (video src dst : String)
    (start stop : Option Rat) (cc : Bool)
    (h1 : fs.pathExists video = false) (h2 : fs.pathExists src = false) :
    probe_duration sys fs video
      = (fs, .error (.fileNotFoundError ("Video not found: " ++ video)))
  ∧ run_ffmpeg_extract_clip sys fs src dst start stop cc
      = (fs, .error (.fileNotFoundError ("Source video not found: " ++ src))) := by
  constructor
  · simp [probe_duration, h1]
  · simp [run_ffmpeg_extract_clip, h2]

/-- Witness for C10 on an empty filesystem. -/
theorem missing_source_short_circuits_witness :
    probe_duration sysEnvOnly fsEmpty "/v.mp4"
      = (fsEmpty, .error (.fileNotFoundError ("Video not found: " ++ "/v.mp4")))
  ∧ run_ffmpeg_extract_clip sysEnvOnly fsEmpty "/v.mp4" "/out.mp4" none none true
      = (fsEmpty, .error (.fileNotFoundError ("Source video not found: " ++ "/v.mp4"))) :=
  missing_source_short_circuits sysEnvOnly fsEmpty "/v.mp4" "/v.mp4" "/out.mp4"
    none none true (by decide) (by decide)

/-- C7: binary resolution is a pure function of the environment variables,
the PATH lookup, the OS identity and architecture, the network, the
configured directories, and the filesystem; in particular it is
independent of the process-runner oracle, so two calls under an identical
environment and filesystem return identical (transcoder, prober) pairs. -/
theorem ensure_binaries_deterministic (env which : String → Option String) (os : OSKind)
    (machine : String) (net : String → DLOutcome) (udd pkg : String)
    (r1 r2 : List String → ProcResult) (fs : FS) :
    ensure_binaries ⟨env, which, os, machine, net, udd, pkg, r1⟩ fs
      = ensure_binaries ⟨env, which, os, machine, net, udd, pkg, r2⟩ fs := rfl

/-- C1: `_find_tool` search order, first match wins: env override when set,
non-empty and existing (returned verbatim, filesystem untouched); an
override naming a nonexistent path is skipped; then PATH, packaged copy,
cached `data_bin/name`, and finally the platform auto-download whose
matching executable is selected. -/
theorem find_tool_search_order (sys : Sys) (fs : FS) (name env_var packaged data_bin : String) :
    (∀ e, sys.env env_var = some e → e ≠ "" → fs.pathExists e = true →
      find_tool sys fs name env_var packaged data_bin = (fs, .ok e))
  ∧ (∀ e, sys.env env_var = some e → fs.pathExists e = false →
      env_override sys fs env_var = none)
  ∧ (env_override sys fs env_var = none → ∀ w, sys.which name = some w →
      find_tool sys fs name env_var packaged data_bin = (fs, .ok w))
  ∧ (env_override sys fs env_var = none → sys.which name = none →
      fs.pathExists packaged = true →
      find_tool sys fs name env_var packaged data_bin = (fs, .ok packaged))
  ∧ (env_override sys fs env_var = none → sys.which name = none →
      fs.pathExists packaged = false → fs.pathExists (pjoin data_bin name) = true →
      find_tool sys fs name env_var packaged data_bin = (fs, .ok (pjoin data_bin name)))
  ∧ (env_override sys fs env_var = none → sys.which name = none →
      fs.pathExists packaged = false → fs.pathExists (pjoin data_bin name) = false →
      find_tool sys fs name env_var packaged data_bin
        = (match auto_download sys fs data_bin with
           | (fs1, .error err) => (fs1, .error err)
           | (fs1, .ok pair) =>
             (fs1, .ok (if strStartsWith name "ffmpeg" then pair.1 else pair.2)))) := by
  refine ⟨?_, ?_, ?_, ?_, ?_, ?_⟩
  · intro e he hne hex
    have h0 : env_override sys fs env_var = some e := by
      simp [env_override, he, hex, bne_iff_ne, hne]
    simp [find_tool, h0]
  · intro e he hex
    simp [env_override, he, hex]
  · intro h0 w hw
    simp [find_tool, h0, hw]
  · intro h0 hw hp
    simp [find_tool, h0, hw, hp]
  · intro h0 hw hp hc
    simp [find_tool, h0, hw, hp, hc]
  · intro h0 hw hp hc
    simp [find_tool, h0, hw, hp, hc]

/-- Witness for C1: the env override wins on a concrete environment. -/
theorem find_tool_search_order_witness :
    find_tool sysEnvOnly fsEnvOnly "ffmpeg" "SMARTVIDEO_FFMPEG" "/pkg/bin/ffmpeg"
      "/home/u/share/bin" = (fsEnvOnly, .ok "/opt/ffmpeg") :=
  (find_tool_search_order sysEnvOnly fsEnvOnly "ffmpeg" "SMARTVIDEO_FFMPEG"
    "/pkg/bin/ffmpeg" "/home/u/share/bin").1 "/opt/ffmpeg" (by decide) (by decide) (by decide)

/-- C6 counterexample: with every source missing on an OS without an
installer, the error raised while resolving the prober has a fixed message
that contains neither the running OS name (`sunos`) nor the tool name
(`ffprobe`). -/
theorem unsupported_os_error_fixed_message :
    sysOther.os = .other "sunos"
  ∧ (find_tool sysOther fsEmpty "ffprobe" "SMARTVIDEO_FFPROBE" "/pkg/bin/ffprobe"
      "/home/u/share/bin").2 = .error (.fileNotFoundError autoDownloadUnavailableMsg)
  ∧ strHasSub autoDownloadUnavailableMsg "sunos" = false
  ∧ strHasSub autoDownloadUnavailableMsg "ffprobe" = false := by
  refine ⟨rfl, by decide, by decide, by decide⟩

/-- C6 amended: when every source misses on an OS with no installer,
`_find_tool` fails with a `FileNotFoundError` carrying one fixed message;
that message lists both override environment variables (hence the resolved
tool's own), but does not name the running OS or the specific tool. -/
theorem find_tool_unsupported_os_error (sys : Sys) (fs : FS)
    (name env_var packaged data_bin o : String)
    (hos : sys.os = .other o)
    (h0 : env_override sys fs env_var = none)
    (hw : sys.which name = none)
    (hp : fs.pathExists packaged = false)
    (hc : fs.pathExists (pjoin data_bin name) = false) :
    find_tool sys fs name env_var packaged data_bin
      = (fs, .error (.fileNotFoundError autoDownloadUnavailableMsg))
  ∧ strHasSub autoDownloadUnavailableMsg "SMARTVIDEO_FFMPEG" = true
  ∧ strHasSub autoDownloadUnavailableMsg "SMARTVIDEO_FFPROBE" = true := by
  refine ⟨?_, by decide, by decide⟩
  simp [find_tool, h0, hw, hp, hc, auto_download, hos]

/-- Witness for the amended C6. -/
theorem find_tool_unsupported_os_error_witness :
    find_tool sysOther fsEmpty "ffmpeg" "SMARTVIDEO_FFMPEG" "/pkg/bin/ffmpeg"
      "/home/u/share/bin" = (fsEmpty, .error (.fileNotFoundError autoDownloadUnavailableMsg)) :=
  (find_tool_unsupported_os_error sysOther fsEmpty "ffmpeg" "SMARTVIDEO_FFMPEG"
    "/pkg/bin/ffmpeg" "/home/u/share/bin" "sunos" rfl (by decide) (by decide)
    (by decide) (by decide)).1

/-- C8 counterexample: on an environment where both tools resolve through
the override variables, `ensure_binaries` still creates the cache
directory (`userDataDir/bin`), so the filesystem is not left unchanged. -/
theorem ensure_binaries_creates_cache_dir_eagerly :
    fsEnvOnly.pathExists "/home/u/share/bin" = false
  ∧ (ensure_binaries sysEnvOnly fsEnvOnly).2 = .ok ("/opt/ffmpeg", "/opt/ffprobe")
  ∧ ((ensure_binaries sysEnvOnly fsEnvOnly).1).pathExists "/home/u/share/bin" = true := by
  refine ⟨by decide, by decide, by decide⟩

/-- C8 amended: the cache directory is created on every `ensure_binaries`
call — even one resolving both tools through the environment override —
and that creation is the only filesystem change on such a call. -/
theorem ensure_binaries_env_hit_only_creates_cache_dir (sys : Sys) (fs : FS) (e1 e2 : String)
    (h1 : sys.env "SMARTVIDEO_FFMPEG" = some e1) (h2 : e1 ≠ "")
    (h3 : fs.pathExists e1 = true)
    (h4 : sys.env "SMARTVIDEO_FFPROBE" = some e2) (h5 : e2 ≠ "")
    (h6 : fs.pathExists e2 = true) :
    ensure_binaries sys fs = (fs.mkdirp (pjoin sys.userDataDir "bin"), .ok (e1, e2))
  ∧ ((ensure_binaries sys fs).1).pathExists (pjoin sys.userDataDir "bin") = true := by
  have hm1 : (fs.mkdirp (pjoin sys.userDataDir "bin")).pathExists e1 = true :=
    FS.pathExists_mkdirp_of fs _ e1 h3
  have hm2 : (fs.mkdirp (pjoin sys.userDataDir "bin")).pathExists e2 = true :=
    FS.pathExists_mkdirp_of fs _ e2 h6
  have hov1 : env_override sys (fs.mkdirp (pjoin sys.userDataDir "bin"))
      "SMARTVIDEO_FFMPEG" = some e1 := by
    simp [env_override, h1, hm1, bne_iff_ne, h2]
  have hov2 : env_override sys (fs.mkdirp (pjoin sys.userDataDir "bin"))
      "SMARTVIDEO_FFPROBE" = some e2 := by
    simp [env_override, h4, hm2, bne_iff_ne, h5]
  have hmain : ensure_binaries sys fs
      = (fs.mkdirp (pjoin sys.userDataDir "bin"), .ok (e1, e2)) := by
    simp [ensure_binaries, data_bin_dir, find_tool, hov1, hov2]
  refine ⟨hmain, ?_⟩
  rw [hmain]
  exact FS.pathExists_mkdirp_self fs _

/-- Witness for the amended C8. -/
theorem ensure_binaries_env_hit_only_creates_cache_dir_witness :
    ensure_binaries sysEnvOnly fsEnvOnly
      = (fsEnvOnly.mkdirp (pjoin sysEnvOnly.userDataDir "bin"),
         .ok ("/opt/ffmpeg", "/opt/ffprobe")) :=
  (ensure_binaries_env_hit_only_creates_cache_dir sysEnvOnly fsEnvOnly
    "/opt/ffmpeg" "/opt/ffprobe" (by decide) (by decide) (by decide)
    (by decide) (by decide) (by decide)).1

/-- C4 counterexample: when the prober exits non-zero with stderr `boom`,
the raised error is `RuntimeError` with the fixed message
`Command failed (see logs above).` which does not contain the captured
stderr text — the diagnostic is logged, not surfaced in the error value. -/
theorem probe_duration_stderr_not_carried :
    (probe_duration sysEnvOnly fsEnvOnly "/v.mp4").2
      = .error (.runtimeError "Command failed (see logs above).")
  ∧ (sysEnvOnly.run (probeCmd "/opt/ffprobe" "/v.mp4")).stderr = "boom"
  ∧ strHasSub "Command failed (see logs above)." "boom" = false := by
  refine ⟨by decide, rfl, by decide⟩

/-- C4 amended: `probe_duration` fails with `FileNotFoundError` on a
missing source, with the parse `RuntimeError` on empty or non-numeric
prober output, and with the fixed-message `RuntimeError` on a non-zero
exit status (the captured stderr is logged but not carried in the
error). -/
theorem probe_duration_error_paths (sys : Sys) (fs : FS) (video : String) :
    (fs.pathExists video = false →
      probe_duration sys fs video
        = (fs, .error (.fileNotFoundError ("Video not found: " ++ video))))
  ∧ (∀ pair : String × String, fs.pathExists video = true →
      (ensure_binaries sys fs).2 = .ok pair →
      (sys.run (probeCmd pair.2 video)).returncode = 0 →
      parsePyFloat (pyStrip (sys.run (probeCmd pair.2 video)).stdout) = none →
      probe_duration sys fs video
        = ((ensure_binaries sys fs).1,
           .error (.runtimeError ("Unable to parse duration for " ++ video))))
  ∧ (∀ pair : String × String, fs.pathExists video = true →
      (ensure_binaries sys fs).2 = .ok pair →
      (sys.run (probeCmd pair.2 video)).returncode ≠ 0 →
      probe_duration sys fs video
        = ((ensure_binaries sys fs).1,
           .error (.runtimeError "Command failed (see logs above)."))) := by
  refine ⟨?_, ?_, ?_⟩
  · intro h1
    simp [probe_duration, h1]
  · intro pair h1 h2 h3 h4
    cases hres : ensure_binaries sys fs with
    | mk fs1 r =>
      rw [hres] at h2
      simp only at h2
      subst h2
      simp [probe_duration, h1, hres, runCommand, h3, h4]
  · intro pair h1 h2 h3
    cases hres : ensure_binaries sys fs with
    | mk fs1 r =>
      rw [hres] at h2
      simp only at h2
      subst h2
      simp [probe_duration, h1, hres, runCommand, h3]

/-- Witness for the amended C4: non-numeric prober output `abc`. -/
theorem probe_duration_error_paths_witness :
    probe_duration sysParseFail fsEnvOnly "/v.mp4"
      = ((ensure_binaries sysParseFail fsEnvOnly).1,
         .error (.runtimeError ("Unable to parse duration for " ++ "/v.mp4"))) :=
  (probe_duration_error_paths sysParseFail fsEnvOnly "/v.mp4").2.1
    ("/opt/ffmpeg", "/opt/ffprobe") (by decide) (by decide) (by decide) (by decide)

/-- After the cleanup step of one failed mirror attempt, the destination
file is gone. -/
lemma dl_step_no_dest (fs1 : FS) (dest : String) :
    (if fs1.pathExists dest then fs1.unlink dest else fs1).pathExists dest = false := by
  split
  · simp [FS.pathExists, FS.look_unlink]
  · rename_i h
    simpa using h

/-- C3: the mirror downloader returns the first URL whose download
succeeds; when every candidate fails it deletes the partially-written
destination and raises a `RuntimeError` whose message carries the full
candidate list and the last underlying error. -/
theorem download_first_ok_spec (net : String → DLOutcome) (urls : List String)
    (dest : String) (fs : FS) :
    (∀ pre u post, urls = pre ++ u :: post →
      (∀ v ∈ pre, (net v).isOk = false) → (net u).isOk = true →
      (download_first_ok net urls dest fs).2 = .ok u)
  ∧ ((∀ v ∈ urls, (net v).isOk = false) →
      ∀ last, urls.getLast? = some last →
      (download_first_ok net urls dest fs).2
        = .error (.runtimeError (dlFailMsg urls ((net last).errMsg)))
      ∧ ((download_first_ok net urls dest fs).1).pathExists dest = false)
  ∧ (∀ url rest (fs0 : FS) (le : Option String) (wrote : Bool) (e : String),
      net url = .fail wrote e →
      ∃ fs2 : FS, fs2.pathExists dest = false
        ∧ dl_attempts net dest (url :: rest) fs0 le
            = dl_attempts net dest rest fs2 (some e)) := by
  refine ⟨?_, ?_, ?_⟩
  · intro pre u post hurls hpre hok
    subst hurls
    have h := dl_attempts_first_ok net dest u hok pre post (fs.mkdirp (parentDir dest)) none hpre
    simp only [download_first_ok]
    rcases hdl : dl_attempts net dest (pre ++ u :: post) (fs.mkdirp (parentDir dest)) none
      with ⟨fs1, c, le⟩
    rw [hdl] at h
    simp only at h
    subst h
    rfl
  · intro hall last hlast
    have hne : urls ≠ [] := by
      intro h
      subst h
      simp at hlast
    obtain ⟨ha, hb, hc⟩ :=
      dl_attempts_all_fail net dest urls (fs.mkdirp (parentDir dest)) none hall
    simp only [download_first_ok]
    rcases hdl : dl_attempts net dest urls (fs.mkdirp (parentDir dest)) none with ⟨fs1, c, le⟩
    rw [hdl] at ha hb hc
    simp only at ha hb hc
    subst ha
    simp only [hlast] at hb
    subst hb
    exact ⟨rfl, hc hne⟩
  · intro url rest fs0 le wrote e hnet
    refine ⟨if (if wrote then fs0.write dest .blob else fs0).pathExists dest
        then (if wrote then fs0.write dest .blob else fs0).unlink dest
        else (if wrote then fs0.write dest .blob else fs0),
      dl_step_no_dest (if wrote then fs0.write dest .blob else fs0) dest, ?_⟩
    conv_lhs => rw [dl_attempts]
    rw [hnet]

/-- Witness for C3: second mirror succeeds after the first fails. -/
theorem download_first_ok_spec_witness :
    (download_first_ok netTwoMirrors ["https://m1/f.zip", "https://m2/f.zip"]
      "/cache/bin/f.zip" fsEmpty).2 = .ok "https://m2/f.zip" :=
  (download_first_ok_spec netTwoMirrors ["https://m1/f.zip", "https://m2/f.zip"]
    "/cache/bin/f.zip" fsEmpty).1 ["https://m1/f.zip"] "https://m2/f.zip" [] rfl
    (by decide) (by decide)

/-- C5 counterexample: the macOS installer, given an ffmpeg archive with
its executable but an ffprobe archive without one, raises the corrupt-
archive error only after extracting the ffmpeg entry — so it is not true
of every platform installer that nothing is extracted before the failure
(the fixed final filenames are still not written). -/
theorem macos_corrupt_archive_partial_extract :
    (ensure_macos_binaries_to sysMacCorrupt fsEmpty "/cache/bin").2
      = .error (.runtimeError "ffprobe zip: ffprobe not found.")
  ∧ ((ensure_macos_binaries_to sysMacCorrupt fsEmpty "/cache/bin").1).pathExists
      "/cache/bin/ffx/bin/ffmpeg" = true
  ∧ ((ensure_macos_binaries_to sysMacCorrupt fsEmpty "/cache/bin").1).pathExists
      "/cache/bin/ffmpeg" = false := by
  refine ⟨by decide, by decide, by decide⟩

/-- C5 amended: the single-archive Windows and Linux installers check both
required members before extracting anything: when either member is missing
they fail with the corrupt-archive `RuntimeError`, the fixed final
filenames are untouched, and no path other than the temporary archive file
(and the cache directory itself) changes.  (Per the counterexample, the
macOS installer may extract its transcoder entry before failing on a
corrupt prober archive, though it too writes no final filenames.) -/
theorem installers_corrupt_archive_no_partial_install (sys : Sys) (fs : FS) (dir_bin : String) :
    (∀ (fs1 : FS) (u : String) (members : List String),
      download_first_ok sys.net win_ffmpeg_zip_urls (pjoin dir_bin "ffmpeg.zip") fs
        = (fs1, .ok u) →
      fs1.read (pjoin dir_bin "ffmpeg.zip") = some (.archive members) →
      (members.find? (fun m => strEndsWith m "/bin/ffmpeg.exe") = none
        ∨ members.find? (fun m => strEndsWith m "/bin/ffprobe.exe") = none) →
      ensure_win_binaries_to sys fs dir_bin
        = (fs1, .error (.runtimeError "ffmpeg.zip does not contain expected binaries."))
      ∧ fs1.pathExists (pjoin dir_bin "ffmpeg.exe") = fs.pathExists (pjoin dir_bin "ffmpeg.exe")
      ∧ fs1.pathExists (pjoin dir_bin "ffprobe.exe")
          = fs.pathExists (pjoin dir_bin "ffprobe.exe")
      ∧ (∀ p, p ≠ pjoin dir_bin "ffmpeg.zip" → p ≠ dir_bin → fs1.look p = fs.look p))
  ∧ (∀ (fs1 : FS) (u : String) (members : List String),
      download_first_ok sys.net
        (match linux_static_urls (strToLower sys.machine) with
         | some us => us
         | none => linux_amd64_urls)
        (pjoin dir_bin "ffmpeg-linux.tar.xz") fs = (fs1, .ok u) →
      fs1.read (pjoin dir_bin "ffmpeg-linux.tar.xz") = some (.archive members) →
      (members.find? (fun m => strEndsWith m "/ffmpeg") = none
        ∨ members.find? (fun m => strEndsWith m "/ffprobe") = none) →
      ensure_linux_binaries_to sys fs dir_bin
        = (fs1, .error (.runtimeError "Archive does not contain ffmpeg/ffprobe."))
      ∧ fs1.pathExists (pjoin dir_bin "ffmpeg") = fs.pathExists (pjoin dir_bin "ffmpeg")
      ∧ fs1.pathExists (pjoin dir_bin "ffprobe") = fs.pathExists (pjoin dir_bin "ffprobe")
      ∧ (∀ p, p ≠ pjoin dir_bin "ffmpeg-linux.tar.xz" → p ≠ dir_bin →
          fs1.look p = fs.look p)) := by
  constructor
  · intro fs1 u members hdl hread hmiss
    have hframe : ∀ p, p ≠ pjoin dir_bin "ffmpeg.zip" → p ≠ dir_bin →
        fs1.look p = fs.look p := by
      intro p hp1 hp2
      have hpar : p ≠ parentDir (pjoin dir_bin "ffmpeg.zip") := by
        rw [parentDir_pjoin dir_bin "ffmpeg.zip" (by decide)]
        exact hp2
      have h1 := download_first_ok_look_ne sys.net win_ffmpeg_zip_urls
        (pjoin dir_bin "ffmpeg.zip") fs p hp1 hpar
      rw [hdl] at h1
      exact h1
    have hfin1 : fs1.pathExists (pjoin dir_bin "ffmpeg.exe")
        = fs.pathExists (pjoin dir_bin "ffmpeg.exe") := by
      apply FS.pathExists_congr
      apply hframe
      · intro h
        exact absurd (pjoin_right_inj h) (by decide)
      · exact pjoin_ne_left dir_bin "ffmpeg.exe"
    have hfin2 : fs1.pathExists (pjoin dir_bin "ffprobe.exe")
        = fs.pathExists (pjoin dir_bin "ffprobe.exe") := by
      apply FS.pathExists_congr
      apply hframe
      · intro h
        exact absurd (pjoin_right_inj h) (by decide)
      · exact pjoin_ne_left dir_bin "ffprobe.exe"
    refine ⟨?_, hfin1, hfin2, hframe⟩
    simp only [ensure_win_binaries_to]
    rw [hdl]
    simp only
    rw [hread]
    rcases hmiss with h | h
    · simp [h]
    · cases hf : members.find? (fun m => strEndsWith m "/bin/ffmpeg.exe") <;> simp [hf, h]
  · intro fs1 u members hdl hread hmiss
    have hframe : ∀ p, p ≠ pjoin dir_bin "ffmpeg-linux.tar.xz" → p ≠ dir_bin →
        fs1.look p = fs.look p := by
      intro p hp1 hp2
      have hpar : p ≠ parentDir (pjoin dir_bin "ffmpeg-linux.tar.xz") := by
        rw [parentDir_pjoin dir_bin "ffmpeg-linux.tar.xz" (by decide)]
        exact hp2
      have h1 := download_first_ok_look_ne sys.net
        (match linux_static_urls (strToLower sys.machine) with
         | some us => us
         | none => linux_amd64_urls)
        (pjoin dir_bin "ffmpeg-linux.tar.xz") fs p hp1 hpar
      rw [hdl] at h1
      exact h1
    have hfin1 : fs1.pathExists (pjoin dir_bin "ffmpeg")
        = fs.pathExists (pjoin dir_bin "ffmpeg") := by
      apply FS.pathExists_congr
      apply hframe
      · intro h
        exact absurd (pjoin_right_inj h) (by decide)
      · exact pjoin_ne_left dir_bin "ffmpeg"
    have hfin2 : fs1.pathExists (pjoin dir_bin "ffprobe")
        = fs.pathExists (pjoin dir_bin "ffprobe") := by
      apply FS.pathExists_congr
      apply hframe
      · intro h
        exact absurd (pjoin_right_inj h) (by decide)
      · exact pjoin_ne_left dir_bin "ffprobe"
    refine ⟨?_, hfin1, hfin2, hframe⟩
    have hne : (match linux_static_urls (strToLower sys.machine) with
        | some us => us
        | none => linux_amd64_urls).isEmpty = false := by
      unfold linux_static_urls
      split_ifs <;> rfl
    simp only [ensure_linux_binaries_to]
    rw [hne]
    simp only [Bool.false_eq_true, if_false]
    rw [hdl]
    simp only
    rw [hread]
    rcases hmiss with h | h
    · simp [h]
    · cases hf : members.find? (fun m => strEndsWith m "/ffmpeg") <;> simp [hf, h]

/-- Witness for the amended C5: a Windows archive with no binaries. -/
theorem installers_corrupt_archive_no_partial_install_witness :
    (ensure_win_binaries_to sysWinCorrupt fsEmpty "/cache/bin").2
      = .error (.runtimeError "ffmpeg.zip does not contain expected binaries.")
  ∧ ((ensure_win_binaries_to sysWinCorrupt fsEmpty "/cache/bin").1).pathExists
      (pjoin "/cache/bin" "ffmpeg.exe") = false := by
  have h2 : (download_first_ok sysWinCorrupt.net win_ffmpeg_zip_urls
      (pjoin "/cache/bin" "ffmpeg.zip") fsEmpty).2
      = .ok "https://www.gyan.dev/ffmpeg/builds/ffmpeg-release-essentials.zip" := by decide
  have hdl : download_first_ok sysWinCorrupt.net win_ffmpeg_zip_urls
      (pjoin "/cache/bin" "ffmpeg.zip") fsEmpty
      = ((download_first_ok sysWinCorrupt.net win_ffmpeg_zip_urls
          (pjoin "/cache/bin" "ffmpeg.zip") fsEmpty).1,
         .ok "https://www.gyan.dev/ffmpeg/builds/ffmpeg-release-essentials.zip") := by
    rw [← h2]
  have h := (installers_corrupt_archive_no_partial_install sysWinCorrupt fsEmpty "/cache/bin").1
    ((download_first_ok sysWinCorrupt.net win_ffmpeg_zip_urls
      (pjoin "/cache/bin" "ffmpeg.zip") fsEmpty).1)
    "https://www.gyan.dev/ffmpeg/builds/ffmpeg-release-essentials.zip"
    ["ffmpeg-7.0-essentials_build/doc/readme.txt"] hdl (by decide) (Or.inl (by decide))
  refine ⟨?_, ?_⟩
  · rw [h.1]
  · rw [h.1]
    exact (h.2.1).trans (by decide)

end SmartVideo
